import Mathlib

/-!
Verification development for the MBTVsummariser pipeline (`src/app.py`).

The program downloads a video, authenticates against a remote
video-analysis service, uploads the file, polls the indexing status in a
`while True` loop, fetches the insights payload and projects it into flat
tables.  The definitions below are a shallow embedding of those functions:
network effects are modelled by explicit environments (a status trace
`Nat → Option String` for the poll loop, response values for the other
calls), Python exceptions by `Except`, and the Streamlit `st.cache`
decorator by explicit memoisation state.
-/

namespace MBTV

/-! ## Polling coordinator: `wait_for_indexing` (app.py lines 66-76)

```python
def wait_for_indexing(video_id, access_token):
    status_url = ...
    while True:
        resp = requests.get(status_url)
        resp.raise_for_status()
        if resp.json().get("state") == "Processed":
            break
        time.sleep(5)
```

The environment is the trace of `"state"` fields returned by successive
successful status reads (`none` models a payload with no `state` key).
The loop has no bound of its own, so the embedding is fuel-indexed: the
outcome after `fuel` iterations is either `processed n` (the loop broke
after its `n`-th status call) or `running n` (`n` calls made so far and
the loop is still going). -/

inductive WaitOutcome where
  | processed (calls : Nat)
  | running (calls : Nat)
  deriving DecidableEq, Repr

/-- The loop body check from line 74: `resp.json().get("state") == "Processed"`. -/
def statusDone (state : Option String) : Bool :=
  state == some "Processed"

def wait_for_indexing_aux (states : Nat → Option String) (i : Nat) : Nat → WaitOutcome
  | 0 => .running i
  | fuel + 1 =>
    if statusDone (states i) then .processed (i + 1)
    else wait_for_indexing_aux states (i + 1) fuel

/-- `wait_for_indexing` observed through `fuel` loop iterations. -/
def wait_for_indexing (states : Nat → Option String) (fuel : Nat) : WaitOutcome :=
  wait_for_indexing_aux states 0 fuel

/-! Helper lemmas about the loop. -/

theorem wait_aux_never_processed (states : Nat → Option String)
    (h : ∀ j, statusDone (states j) = false) :
    ∀ (fuel i : Nat), wait_for_indexing_aux states i fuel = .running (i + fuel) := by
  intro fuel
  induction fuel with
  | zero => intro i; simp [wait_for_indexing_aux]
  | succ n ih =>
    intro i
    have h2 : i + 1 + n = i + (n + 1) := by omega
    simp [wait_for_indexing_aux, h i, ih (i + 1), h2]

theorem wait_aux_update_step (states : Nat → Option String) (n : Nat)
    (v w : Option String) (hv : statusDone v = statusDone w) :
    ∀ (fuel i : Nat),
      wait_for_indexing_aux (Function.update states n v) i fuel
        = wait_for_indexing_aux (Function.update states n w) i fuel := by
  intro fuel
  induction fuel with
  | zero => intro i; rfl
  | succ m ih =>
    intro i
    by_cases hi : i = n
    · subst hi
      simp only [wait_for_indexing_aux, Function.update_same, hv, ih (i + 1)]
    · simp only [wait_for_indexing_aux, Function.update_noteq hi, ih (i + 1)]

/-- C1: the loop, observed on a job that is forever `Processing`, is still
running after every finite number of iterations; no timeout path exists in
the code, so no `PollingTimeoutError` can ever be produced. -/
theorem C1_no_timeout_loop_runs_forever :
    ∀ fuel : Nat,
      wait_for_indexing (fun _ => some "Processing") fuel = WaitOutcome.running fuel := by
  intro fuel
  have h := wait_aux_never_processed (fun _ => some "Processing")
    (by intro j; rfl) fuel 0
  simpa [wait_for_indexing] using h

/-- C2: a `Failed` state does not stop the loop.  On a trace that reports
`Failed` forever the loop is still running after every finite number of
iterations (no `AnalysisFailedError` is ever raised), and on a trace that
reports `Failed` then `Processed` the loop makes a second status call
after having observed `Failed`. -/
theorem C2_failed_state_is_retried :
    (∀ fuel : Nat,
        wait_for_indexing (fun _ => some "Failed") fuel = WaitOutcome.running fuel)
    ∧ wait_for_indexing
        (fun i => if i = 0 then some "Failed" else some "Processed") 5
        = WaitOutcome.processed 2 := by
  constructor
  · intro fuel
    have h := wait_aux_never_processed (fun _ => some "Failed")
      (by intro j; rfl) fuel 0
    simpa [wait_for_indexing] using h
  · rfl

/-- C3: the loop reads no cancellation signal (its only inputs are the
status URL pieces), so no input can make it abort with `CancelledError`:
on a job that never reaches `Processed` it is still polling after every
finite number of iterations. -/
theorem C3_no_cancellation_loop_runs_forever :
    ∀ fuel : Nat,
      wait_for_indexing (fun _ => some "Uploaded") fuel = WaitOutcome.running fuel := by
  intro fuel
  have h := wait_aux_never_processed (fun _ => some "Uploaded")
    (by intro j; rfl) fuel 0
  simpa [wait_for_indexing] using h

/-- C5: a status payload with no `state` field behaves exactly like an
explicit `Processing` state: replacing any one poll's answer `none` by
`some "Processing"` (or vice versa) leaves the whole loop's behaviour
unchanged, at every fuel bound — in particular the loop does not abort on
the missing field, it sleeps and retries. -/
theorem C5_missing_state_equals_processing :
    ∀ (states : Nat → Option String) (n fuel : Nat),
      wait_for_indexing (Function.update states n none) fuel
        = wait_for_indexing (Function.update states n (some "Processing")) fuel := by
  intro states n fuel
  exact wait_aux_update_step states n none (some "Processing") rfl fuel 0

/-! ## Remote analysis client with `st.cache` (app.py lines 41-64, 78-86)

`get_account_access_token` and `upload_video_file` are decorated with
`@st.cache(show_spinner=False)`: Streamlit memoises each function
process-wide, keyed by its arguments, so a repeated call with identical
arguments returns the cached value without executing the body (and hence
without any network request).  The embedding carries the cache and a
count of network requests actually issued; `authNet`/`uploadNet` are the
service's responses. -/

structure SessionState where
  tokenCache : Option String
  uploadCache : List ((String × String) × String)
  authRequests : Nat
  uploadRequests : Nat
  deriving DecidableEq, Repr

/-- `get_account_access_token` under `@st.cache`: the function takes no
arguments, so the cache holds at most one entry. -/
def get_account_access_token (authNet : String) (s : SessionState) :
    String × SessionState :=
  match s.tokenCache with
  | some t => (t, s)
  | none =>
    (authNet, { s with tokenCache := some authNet,
                       authRequests := s.authRequests + 1 })

/-- `upload_video_file` under `@st.cache`, keyed by
`(file_path, access_token)`. -/
def upload_video_file (uploadNet : String → String → String)
    (file_path access_token : String) (s : SessionState) :
    String × SessionState :=
  match s.uploadCache.find? (fun p => p.1 == (file_path, access_token)) with
  | some p => (p.2, s)
  | none =>
    let vid := uploadNet file_path access_token
    (vid, { s with
              uploadCache := ((file_path, access_token), vid) :: s.uploadCache,
              uploadRequests := s.uploadRequests + 1 })

/-- The fresh session state at process start: empty caches, no requests. -/
def freshSession : SessionState := ⟨none, [], 0, 0⟩

/-- C4 counterexample: two successive calls to the cached
`get_account_access_token` from a fresh session issue one network
request, not two — the second call does not hit the network, refuting
"every call to authenticate ... issues a fresh network request". -/
theorem C4_counterexample_second_auth_call_is_cached :
    (get_account_access_token "tok"
      (get_account_access_token "tok" freshSession).2).2.authRequests = 1 := by
  rfl

/-- C4 (amended): the client memoises via `st.cache`.  A call that finds
its arguments in the cache returns the cached value and leaves the
session state — network request counts included — unchanged; a call that
misses the cache issues exactly one fresh request.  Two invocations with
identical inputs therefore share results instead of being independent. -/
theorem C4_client_is_memoised :
    (∀ (authNet : String) (s : SessionState) (t : String),
        s.tokenCache = some t →
        get_account_access_token authNet s = (t, s))
    ∧ (∀ (authNet : String) (s : SessionState),
        s.tokenCache = none →
        (get_account_access_token authNet s).2.authRequests = s.authRequests + 1)
    ∧ (∀ (uploadNet : String → String → String)
          (fp tok : String) (s : SessionState) (pv : (String × String) × String),
        s.uploadCache.find? (fun p => p.1 == (fp, tok)) = some pv →
        upload_video_file uploadNet fp tok s = (pv.2, s))
    ∧ (∀ (uploadNet : String → String → String)
          (fp tok : String) (s : SessionState),
        s.uploadCache.find? (fun p => p.1 == (fp, tok)) = none →
        (upload_video_file uploadNet fp tok s).2.uploadRequests
          = s.uploadRequests + 1) := by
  refine ⟨?_, ?_, ?_, ?_⟩
  · intro authNet s t h
    simp [get_account_access_token, h]
  · intro authNet s h
    simp [get_account_access_token, h]
  · intro uploadNet fp tok s pv h
    simp [upload_video_file, h]
  · intro uploadNet fp tok s h
    simp [upload_video_file, h]

/-- C4 witness: a session whose caches hold `"tok"` and an upload entry
for `("f.mp4", "tok")` answers both calls from the cache. -/
theorem C4_client_is_memoised_witness :
    get_account_access_token "x" ⟨some "tok", [(("f.mp4", "tok"), "vid1")], 1, 1⟩
      = ("tok", ⟨some "tok", [(("f.mp4", "tok"), "vid1")], 1, 1⟩)
    ∧ upload_video_file (fun _ _ => "vid9") "f.mp4" "tok"
        ⟨some "tok", [(("f.mp4", "tok"), "vid1")], 1, 1⟩
      = ("vid1", ⟨some "tok", [(("f.mp4", "tok"), "vid1")], 1, 1⟩) := by
  constructor
  · exact C4_client_is_memoised.1 "x"
      ⟨some "tok", [(("f.mp4", "tok"), "vid1")], 1, 1⟩ "tok" rfl
  · exact C4_client_is_memoised.2.2.1 (fun _ _ => "vid9") "f.mp4" "tok"
      ⟨some "tok", [(("f.mp4", "tok"), "vid1")], 1, 1⟩ (("f.mp4", "tok"), "vid1") rfl

/-! ## JSON values and the OCR projection argument (app.py lines 136-138)

```python
df_ocr    = build_df(insights.get('videos', []).get('Ocr', []), 'text')
```

`insights` is the parsed JSON payload, a Python dict.  `dict.get` with a
default never raises; the second `.get` is an attribute access on the
first result, which succeeds only when that value is itself a dict —
Python raises `AttributeError` on a list. -/

inductive JVal where
  | str (s : String)
  | num (q : ℚ)
  | bool (b : Bool)
  | null
  | arr (xs : List JVal)
  | obj (kvs : List (String × JVal))

/-- Python `d.get(k, default)` on a dict modelled as an association list. -/
def dictGet (kvs : List (String × JVal)) (k : String) (d : JVal) : JVal :=
  match kvs.find? (fun p => p.1 == k) with
  | some p => p.2
  | none => d

/-- Python attribute-style `v.get(k, default)` on an arbitrary value:
succeeds only when `v` is a dict, raises `AttributeError` otherwise. -/
def pyGet (v : JVal) (k : String) (d : JVal) : Except String JVal :=
  match v with
  | .obj kvs => .ok (dictGet kvs k d)
  | _ => .error "AttributeError: object has no attribute get"

/-- The argument of the OCR projection:
`insights.get('videos', []).get('Ocr', [])`. -/
def ocr_items (insights : List (String × JVal)) : Except String JVal :=
  pyGet (dictGet insights "videos" (.arr [])) "Ocr" (.arr [])

/-- C10: when the key `'videos'` is absent, the fallback is the list
`[]`, the chained `.get('Ocr', [])` raises `AttributeError`, and the OCR
projection step fails rather than producing an empty table; it succeeds
exactly when `'videos'` is present and its value is a mapping. -/
theorem C10_ocr_projection_needs_videos_mapping :
    ∀ (insights : List (String × JVal)),
      (insights.find? (fun p => p.1 == "videos") = none →
        ocr_items insights
          = .error "AttributeError: object has no attribute get")
      ∧ ((∃ x, ocr_items insights = .ok x) ↔
          ∃ kvs, dictGet insights "videos" (.arr []) = .obj kvs) := by
  intro insights
  constructor
  · intro h
    simp [ocr_items, dictGet, h, pyGet]
  · constructor
    · rintro ⟨x, hx⟩
      unfold ocr_items pyGet at hx
      cases hv : dictGet insights "videos" (.arr []) <;>
        rw [hv] at hx <;> simp_all
    · rintro ⟨kvs, hkvs⟩
      exact ⟨dictGet kvs "Ocr" (.arr []), by simp [ocr_items, hkvs, pyGet]⟩

/-- C10 witness: a payload whose only key is `'topics'` has no
`'videos'` entry, and its OCR projection raises; a payload whose
`'videos'` value is a mapping succeeds. -/
theorem C10_ocr_projection_needs_videos_mapping_witness :
    ocr_items [("topics", .arr [])]
      = .error "AttributeError: object has no attribute get"
    ∧ ∃ x, ocr_items [("videos", .obj [])] = .ok x := by
  constructor
  · exact (C10_ocr_projection_needs_videos_mapping [("topics", .arr [])]).1 rfl
  · exact (C10_ocr_projection_needs_videos_mapping [("videos", .obj [])]).2.mpr
      ⟨[], rfl⟩

/-! ## Pipeline orchestration (app.py lines 99-117)

```python
local_file = download_youtube_video(youtube_url)
token      = get_account_access_token()
vid        = upload_video_file(local_file, token)
wait_for_indexing(vid, token)
insights   = fetch_insights(vid, token)
```

Each step is a Python call that either returns a value or raises; a
raised exception propagates and no later line executes.  The
environment supplies each remote operation's behaviour, and `run`
additionally records the sequence of operation invocations (one `status`
entry per poll-loop iteration).  `fuel` bounds how many poll iterations
are observed; `stillPolling` reports that the unbounded loop was still
running at that bound. -/

inductive Call where
  | download (url : String)
  | auth
  | upload (path tok : String)
  | status (vid tok : String)
  | insights (vid tok : String)
  deriving DecidableEq, Repr

inductive PipeErr where
  | fetchErr (e : String)
  | authErr (e : String)
  | uploadErr (e : String)
  deriving DecidableEq, Repr

inductive RunOutcome where
  | done (result : List (String × JVal))
  | failed (e : PipeErr)
  | stillPolling

structure Env where
  fetch : String → Except String String
  authResp : Except String String
  uploadResp : String → String → Except String String
  states : Nat → Option String
  insightsResp : String → String → List (String × JVal)

/-- The module-level pipeline: download, authenticate, upload, poll,
fetch insights — each step only after the previous one returned. -/
def run (env : Env) (url : String) (fuel : Nat) : RunOutcome × List Call :=
  match env.fetch url with
  | .error e => (.failed (.fetchErr e), [.download url])
  | .ok file =>
    match env.authResp with
    | .error e => (.failed (.authErr e), [.download url, .auth])
    | .ok tok =>
      match env.uploadResp file tok with
      | .error e =>
        (.failed (.uploadErr e), [.download url, .auth, .upload file tok])
      | .ok vid =>
        match wait_for_indexing env.states fuel with
        | .running n =>
          (.stillPolling,
           [.download url, .auth, .upload file tok]
             ++ List.replicate n (.status vid tok))
        | .processed n =>
          (.done (env.insightsResp vid tok),
           [.download url, .auth, .upload file tok]
             ++ List.replicate n (.status vid tok) ++ [.insights vid tok])

/-- C6: when the download step fails, `run` aborts with the fetch error
having invoked only the downloader — `authenticate` is never called; and
in general every step's invocation presupposes that all its predecessors
completed successfully. -/
theorem C6_fetch_failure_short_circuits :
    (∀ (env : Env) (url : String) (fuel : Nat) (e : String),
        env.fetch url = .error e →
        run env url fuel = (.failed (.fetchErr e), [.download url]))
    ∧ (∀ (env : Env) (url : String) (fuel : Nat),
        (Call.auth ∈ (run env url fuel).2 → ∃ f, env.fetch url = .ok f)
        ∧ (∀ f t, Call.upload f t ∈ (run env url fuel).2 →
            env.fetch url = .ok f ∧ env.authResp = .ok t)
        ∧ (∀ v t, Call.status v t ∈ (run env url fuel).2 →
            ∃ f, env.fetch url = .ok f ∧ env.authResp = .ok t
              ∧ env.uploadResp f t = .ok v)
        ∧ (∀ v t, Call.insights v t ∈ (run env url fuel).2 →
            ∃ f n, env.fetch url = .ok f ∧ env.authResp = .ok t
              ∧ env.uploadResp f t = .ok v
              ∧ wait_for_indexing env.states fuel = .processed n)) := by
  constructor
  · intro env url fuel e he
    simp [run, he]
  · intro env url fuel
    cases hf : env.fetch url with
    | error e =>
      refine ⟨?_, ?_, ?_, ?_⟩ <;> intros <;> simp_all [run]
    | ok file =>
      cases ha : env.authResp with
      | error e =>
        refine ⟨?_, ?_, ?_, ?_⟩ <;> intros <;> simp_all [run]
      | ok tok =>
        cases hu : env.uploadResp file tok with
        | error e =>
          refine ⟨?_, ?_, ?_, ?_⟩ <;> intros <;> simp_all [run]
        | ok vid =>
          cases hw : wait_for_indexing env.states fuel with
          | running n =>
            refine ⟨?_, ?_, ?_, ?_⟩ <;> intros <;>
              simp_all [run, List.mem_replicate]
          | processed n =>
            refine ⟨?_, ?_, ?_, ?_⟩ <;> intros <;>
              simp_all [run, List.mem_replicate]

/-- C6 witness: an environment whose downloader rejects the URL makes
the run fail with the fetch error after the single download call. -/
theorem C6_fetch_failure_short_circuits_witness :
    run ⟨fun _ => .error "unsupported host", .ok "tok", fun _ _ => .ok "vid",
         fun _ => none, fun _ _ => []⟩
        "https://video.example/abc" 10
      = (.failed (.fetchErr "unsupported host"),
         [.download "https://video.example/abc"]) :=
  C6_fetch_failure_short_circuits.1
    ⟨fun _ => .error "unsupported host", .ok "tok", fun _ _ => .ok "vid",
     fun _ => none, fun _ _ => []⟩
    "https://video.example/abc" 10 "unsupported host" rfl

theorem wait_three (states : Nat → Option String)
    (h0 : statusDone (states 0) = false) (h1 : statusDone (states 1) = false)
    (h2 : statusDone (states 2) = true) (k : Nat) :
    wait_for_indexing states (k + 3) = .processed 3 := by
  simp [wait_for_indexing, wait_for_indexing_aux, h0, h1, h2]

/-- C8: if upload succeeds with job id `"job-123"` and the first two
status polls report `Processing` while the third reports `Processed`,
the run makes exactly 3 status calls for that job followed by exactly
one insights fetch with that job id and token. -/
theorem C8_three_polls_then_one_fetch :
    ∀ (env : Env) (url file tok : String) (k : Nat),
      env.fetch url = .ok file →
      env.authResp = .ok tok →
      env.uploadResp file tok = .ok "job-123" →
      env.states 0 = some "Processing" →
      env.states 1 = some "Processing" →
      env.states 2 = some "Processed" →
      run env url (k + 3)
        = (.done (env.insightsResp "job-123" tok),
           [.download url, .auth, .upload file tok,
            .status "job-123" tok, .status "job-123" tok, .status "job-123" tok,
            .insights "job-123" tok])
      ∧ (run env url (k + 3)).2.count (Call.status "job-123" tok) = 3
      ∧ (run env url (k + 3)).2.count (Call.insights "job-123" tok) = 1 := by
  intro env url file tok k hf ha hu h0 h1 h2
  have hw : wait_for_indexing env.states (k + 3) = .processed 3 :=
    wait_three env.states (by simp [statusDone, h0]) (by simp [statusDone, h1])
      (by simp [statusDone, h2]) k
  have hrun : run env url (k + 3)
      = (.done (env.insightsResp "job-123" tok),
         [.download url, .auth, .upload file tok,
          .status "job-123" tok, .status "job-123" tok, .status "job-123" tok,
          .insights "job-123" tok]) := by
    simp [run, hf, ha, hu, hw, List.replicate]
  refine ⟨hrun, ?_, ?_⟩ <;> rw [hrun] <;>
    simp [List.count_cons, List.count_nil]

/-- The concrete environment of the C8 scenario. -/
def envC8 : Env :=
  { fetch := fun _ => .ok "video.mp4",
    authResp := .ok "tok",
    uploadResp := fun _ _ => .ok "job-123",
    states := fun i => if i < 2 then some "Processing" else some "Processed",
    insightsResp := fun _ _ => [("videos", .obj [])] }

/-- C8 witness: the scenario run in `envC8`. -/
theorem C8_three_polls_then_one_fetch_witness :
    run envC8 "https://video.example/abc" 3
      = (.done [("videos", .obj [])],
         [.download "https://video.example/abc", .auth,
          .upload "video.mp4" "tok",
          .status "job-123" "tok", .status "job-123" "tok",
          .status "job-123" "tok", .insights "job-123" "tok"])
      ∧ (run envC8 "https://video.example/abc" 3).2.count
          (Call.status "job-123" "tok") = 3
      ∧ (run envC8 "https://video.example/abc" 3).2.count
          (Call.insights "job-123" "tok") = 1 :=
  C8_three_polls_then_one_fetch envC8 "https://video.example/abc"
    "video.mp4" "tok" 0 rfl rfl rfl rfl rfl rfl

/-! ## Result projector: `build_df` (app.py lines 121-134)

```python
def build_df(items, key_name):
    rows = []
    for item in items:
        textInfo = item.get(key_name) if key_name != 'text' else item.get('text')
        conf = item.get('confidence')
        inst_list = item.get('instances', [])
        for inst in inst_list:
            rows.append({"Text": textInfo, "Confidence": round(conf,3),
                         "Start": inst.get('start'), "End": inst.get('end')})
    return pd.DataFrame(rows)
```

Items are the records of one insights section.  `item.get(...)` yields
`None` for a missing key, modelled by `Option`; confidence values are
rationals.  `round(conf, 3)` raises `TypeError` when `conf` is `None` —
and it is evaluated once per *instance*, inside the inner loop, so an
item with no instances never evaluates it.  The embedding therefore
returns `Except`. -/

structure TimeInstance where
  start : Option String
  endTime : Option String
  deriving DecidableEq, Repr

structure InsightItem where
  text : Option String
  name : Option String
  confidence : Option ℚ
  instances : List TimeInstance
  deriving DecidableEq, Repr

/-- `item.get(key_name)` for the two key names the program uses
(`'text'` for OCR/keywords, `'name'` for topics). -/
def getField (item : InsightItem) (key : String) : Option String :=
  if key == "text" then item.text
  else if key == "name" then item.name
  else none

/-- Python `round(q, 3)` on a rational (round-half-to-even ties never
arise in the concrete payloads; rounding to the nearest multiple of
1/1000). -/
def round3 (q : ℚ) : ℚ := (round (q * 1000) : ℚ) / 1000

structure Row where
  text : Option String
  confidence : ℚ
  start : Option String
  endTime : Option String
  deriving DecidableEq, Repr

/-- The inner `for inst in inst_list` loop: appends one row per
instance; `round(conf, 3)` raises `TypeError` when `conf` is `None`.
Rows are accumulated in reverse, as by `rows.append`. -/
def instLoop (textInfo : Option String) (conf : Option ℚ) :
    List TimeInstance → List Row → Except String (List Row)
  | [], acc => .ok acc
  | inst :: rest, acc =>
    match conf with
    | none => .error "TypeError: type NoneType does not define round"
    | some c =>
      instLoop textInfo conf rest
        ({ text := textInfo, confidence := round3 c,
           start := inst.start, endTime := inst.endTime } :: acc)

/-- The outer `for item in items` loop of `build_df`. -/
def build_df_go (key : String) :
    List InsightItem → List Row → Except String (List Row)
  | [], acc => .ok acc.reverse
  | item :: rest, acc =>
    match instLoop (if key != "text" then getField item key else item.text)
        item.confidence item.instances acc with
    | .error e => .error e
    | .ok acc' => build_df_go key rest acc'

/-- `build_df(items, key_name)`: the list of rows of the resulting
dataframe, or the raised exception. -/
def build_df (items : List InsightItem) (key : String) :
    Except String (List Row) :=
  build_df_go key items []

/-- The row an instance of an item projects to. -/
def rowOf (key : String) (item : InsightItem) (inst : TimeInstance) : Row :=
  { text := if key != "text" then getField item key else item.text,
    confidence := round3 (item.confidence.getD 0),
    start := inst.start, endTime := inst.endTime }

theorem instLoop_ok (textInfo : Option String) (c : ℚ) :
    ∀ (insts : List TimeInstance) (acc : List Row),
      instLoop textInfo (some c) insts acc
        = .ok ((insts.map (fun inst =>
            { text := textInfo, confidence := round3 c,
              start := inst.start, endTime := inst.endTime })).reverse ++ acc) := by
  intro insts
  induction insts with
  | nil => intro acc; simp [instLoop]
  | cons inst rest ih =>
    intro acc
    simp only [instLoop, List.map_cons, List.reverse_cons]
    rw [ih]
    simp

theorem build_df_go_ok (key : String) :
    ∀ (items : List InsightItem) (acc : List Row),
      (∀ item ∈ items, item.instances ≠ [] → item.confidence ≠ none) →
      build_df_go key items acc
        = .ok (acc.reverse ++ items.flatMap (fun item =>
            item.instances.map (rowOf key item))) := by
  intro items
  induction items with
  | nil => intro acc _; simp [build_df_go]
  | cons item rest ih =>
    intro acc h
    have hitem := h item (List.mem_cons_self item rest)
    have hinner :
        instLoop (if key != "text" then getField item key else item.text)
          item.confidence item.instances acc
          = .ok ((item.instances.map (rowOf key item)).reverse ++ acc) := by
      cases hc : item.confidence with
      | none =>
        have : item.instances = [] := by
          by_contra hne
          exact hitem hne hc
        simp [this, instLoop]
      | some c =>
        rw [instLoop_ok _ c item.instances acc]
        simp [rowOf, hc]
    simp only [build_df_go, hinner]
    rw [ih _ (fun it hit => h it (List.mem_cons_of_mem _ hit))]
    simp

/-- C7: under the precondition that every item carrying at least one time
instance also carries a confidence value, `build_df` succeeds and emits
exactly one row per (item × instance) pair, in order: each row carries
the item's shared label field and its confidence rounded to 3 decimals
together with that instance's start/end; an item with zero instances
contributes zero rows and no error. -/
theorem C7_build_df_one_row_per_instance :
    ∀ (items : List InsightItem) (key : String),
      (∀ item ∈ items, item.instances ≠ [] → item.confidence ≠ none) →
      build_df items key
        = .ok (items.flatMap (fun item => item.instances.map (rowOf key item))) := by
  intro items key h
  unfold build_df
  rw [build_df_go_ok key items [] h]
  simp

/-- C7 witness: one item with two instances and confidence 0.856 yields
exactly two rows with confidence 0.856 and the instances' distinct
start/end pairs; an item with zero instances (even one with no
confidence) yields zero rows. -/
theorem C7_build_df_one_row_per_instance_witness :
    build_df
      [⟨some "hello", none, some (856/1000),
        [⟨some "0:00:01", some "0:00:02"⟩, ⟨some "0:00:07", some "0:00:09"⟩]⟩,
       ⟨some "empty", none, none, []⟩] "text"
      = .ok
        [⟨some "hello", 856/1000, some "0:00:01", some "0:00:02"⟩,
         ⟨some "hello", 856/1000, some "0:00:07", some "0:00:09"⟩] := by
  rw [C7_build_df_one_row_per_instance
    [⟨some "hello", none, some (856/1000),
      [⟨some "0:00:01", some "0:00:02"⟩, ⟨some "0:00:07", some "0:00:09"⟩]⟩,
     ⟨some "empty", none, none, []⟩] "text"
    (by intro item hmem hne; fin_cases hmem <;> simp_all)]
  simp [rowOf, getField, round3]

/-- C9: `build_df` is total only when every item with instances carries a
confidence: an item with at least one time instance but no confidence
field makes `round` fail on `None`, so `build_df` raises instead of
producing rows with an absent confidence. -/
theorem C9_build_df_raises_on_missing_confidence :
    ∀ (items : List InsightItem) (key : String),
      (∃ item ∈ items, item.instances ≠ [] ∧ item.confidence = none) →
      ∃ e, build_df items key = .error e := by
  intro items key h
  suffices hgo : ∀ (acc : List Row), ∃ e, build_df_go key items acc = .error e by
    exact hgo []
  induction items with
  | nil => simp_all
  | cons item rest ih =>
    intro acc
    rcases h with ⟨bad, hmem, hne, hconf⟩
    rcases List.mem_cons.mp hmem with hbad | htail
    · subst hbad
      rcases List.exists_cons_of_ne_nil hne with ⟨inst, insts, hinsts⟩
      refine ⟨"TypeError: type NoneType does not define round", ?_⟩
      simp [build_df_go, hinsts, hconf, instLoop]
    · cases hloop : instLoop (if key != "text" then getField item key else item.text)
        item.confidence item.instances acc with
      | error e => exact ⟨e, by unfold build_df_go; rw [hloop]⟩
      | ok acc' =>
        rcases ih ⟨bad, htail, hne, hconf⟩ acc' with ⟨e, he⟩
        exact ⟨e, by unfold build_df_go; rw [hloop]; exact he⟩

/-- C9 witness: a single keyword item with one instance and no
confidence raises. -/
theorem C9_build_df_raises_on_missing_confidence_witness :
    ∃ e, build_df [⟨some "kw", none, none, [⟨some "0:00:01", some "0:00:02"⟩]⟩]
      "text" = .error e :=
  C9_build_df_raises_on_missing_confidence
    [⟨some "kw", none, none, [⟨some "0:00:01", some "0:00:02"⟩]⟩] "text"
    ⟨⟨some "kw", none, none, [⟨some "0:00:01", some "0:00:02"⟩]⟩,
      List.mem_cons_self _ _, by simp, rfl⟩

end MBTV
